import Mathlib

/-!
Verification of the AgentDash client-side reconciliation and live-connection
logic: a shallow embedding of `KanbanBoard.handleDragEnd` / `arrayMove`,
`App.connectWebSocket`'s socket handlers, the `ActivityLog` inbound-event
effect, and `ActivityLog.formatTime`, together with proofs of the spec's
testable properties about them.
-/

namespace AgentDash

/-- A Task entity as held by the Board State Store
(`{ id, title, description, status, priority, task_type, is_recurring, created_at }`). -/
structure Task where
  id : Nat
  title : String
  description : String
  status : String
  priority : String
  task_type : String
  is_recurring : Nat
  created_at : String
  deriving DecidableEq, Repr

/-- The drag-and-drop library's `arrayMove(array, from, to)`: copy the array,
`splice` out the element at index `from`, and `splice` it back in at index `to`
(JS `splice` clamps an insertion index past the end, hence the `min`).
`handleDragEnd` only ever calls it with two valid indices; for an out-of-range
`from` the list is returned unchanged. -/
def arrayMove (l : List Task) (i j : Nat) : List Task :=
  match l[i]? with
  | some x => (l.eraseIdx i).insertIdx (min j (l.eraseIdx i).length) x
  | none => l

/-- One invocation of `KanbanBoard.handleDragEnd` on the current task list.
`over = none` models a drop with no target (`if (!over) return`). The result is
the task list after the handler (the `setTasks` updater runs on the same list)
paired with the PUT request it issues, if any: `some (taskId, newStatus)` models
`updateTaskStatus(active.id, newStatus)`, whose request body carries only the
`status` field. -/
def handleDragEnd (tasks : List Task) (activeId : Nat) (over : Option Nat) :
    List Task × Option (Nat × String) :=
  match over with
  | none => (tasks, none)
  | some overId =>
    match tasks.find? (fun t => t.id == activeId), tasks.find? (fun t => t.id == overId) with
    | some activeTask, some overTask =>
      if activeTask.status == overTask.status then
        (arrayMove tasks (tasks.findIdx (fun t => t.id == activeId))
          (tasks.findIdx (fun t => t.id == overId)), none)
      else
        (tasks, some (activeId, overTask.status))
    | _, _ => (tasks, none)

/-- Outcome of the `fetch` promise for the PUT in `updateTaskStatus`:
the promise either resolves with an HTTP response (`ok` records whether the
status code was 2xx; `fetch` resolves even for error statuses) or rejects
(network-level failure). -/
inductive FetchOutcome where
  | resolved (ok : Bool)
  | rejected
  deriving DecidableEq, Repr

/-- Whether `updateTaskStatus` reaches its `fetchTasks()` call: the refetch
statement sits after `await fetch(...)` inside the `try` block, so it runs
exactly when the promise resolves; a rejected promise jumps to `catch`, which
only logs. -/
def updateTaskStatusRefetches (outcome : FetchOutcome) : Bool :=
  match outcome with
  | .resolved _ => true
  | .rejected => false

/-- A dynamic JS object as it flows through the activity log: every field the
client reads is optional, since inbound payloads carry no schema. -/
structure JsObj where
  id : Option Nat
  type : Option String
  message : Option String
  agent_name : Option String
  created_at : Option String
  deriving DecidableEq, Repr

/-- A decoded WebSocket envelope `{ type, data }` as produced by `JSON.parse`
in the `onmessage` handler. -/
structure WsMessage where
  type : String
  data : JsObj
  deriving DecidableEq, Repr

/-- The App-level state touched by `connectWebSocket`'s handlers: the
`isConnected` flag, the latest forwarded message (`wsData`), the delays of the
pending `setTimeout(connectWebSocket, _)` timers, and how many times
`connectWebSocket` has been invoked. -/
structure AppState where
  isConnected : Bool
  wsData : Option WsMessage
  scheduled : List Nat
  attempts : Nat
  deriving Repr

/-- An invocation of `connectWebSocket`: a fresh connection attempt. -/
def connectWebSocket (st : AppState) : AppState :=
  { st with attempts := st.attempts + 1 }

/-- The `onopen` handler: `setIsConnected(true)`. -/
def onopen (st : AppState) : AppState :=
  { st with isConnected := true }

/-- The `onmessage` handler: `JSON.parse(event.data)` either yields a decoded
message (`some`) which is forwarded via `setWsData`, or throws (`none`), in
which case the `catch` block only logs and the state is untouched. -/
def onmessage (st : AppState) (parsed : Option WsMessage) : AppState :=
  match parsed with
  | some d => { st with wsData := some d }
  | none => st

/-- The `onclose` handler: `setIsConnected(false)` and
`setTimeout(connectWebSocket, 3000)` — one new timer with a fixed 3000 ms
delay, unconditionally. -/
def onclose (st : AppState) : AppState :=
  { st with isConnected := false, scheduled := st.scheduled ++ [3000] }

/-- A pending reconnect timer fires: the head of the timer queue is consumed
and `connectWebSocket` runs. -/
def fireReconnectTimer (st : AppState) : AppState :=
  match st.scheduled with
  | [] => st
  | _ :: rest => connectWebSocket { st with scheduled := rest }

/-- The `useEffect` cleanup on unmount calls `wsRef.current.close()`; the
socket then fires the same unconditional `onclose` handler — there is no flag
distinguishing intentional shutdown from unexpected closure. -/
def unmountCleanup (st : AppState) : AppState :=
  onclose st

/-- One failed reconnection round: the pending timer fires, the new attempt's
socket closes again, and `onclose` runs. -/
def failedAttemptCycle (st : AppState) : AppState :=
  onclose (fireReconnectTimer st)

/-- JS `v || d` specialised to the optional string fields of an inbound
payload: an absent field (`undefined`/`null`) or an empty string is falsy and
yields the default. -/
def jsOr (v : Option String) (d : String) : String :=
  match v with
  | some s => if s = "" then d else s
  | none => d

/-- The Activity entry the `ingest_received` branch synthesizes locally:
`{ id: Date.now(), type: data.type || 'info', message: data.message || '...',
agent_name: data.agent_name || 'Unknown', created_at: new Date().toISOString() }`. -/
def ingestActivity (data : JsObj) (nowMs : Nat) (nowIso : String) : JsObj :=
  { id := some nowMs,
    type := some (jsOr data.type "info"),
    message := some (jsOr data.message "Data ingested from agent"),
    agent_name := some (jsOr data.agent_name "Unknown"),
    created_at := some nowIso }

/-- The `ActivityLog` effect on a new `wsData` value: `activity_created`
prepends the payload and keeps `slice(0, 20)`; `ingest_received` prepends the
locally synthesized entry under the same cap; any other message type leaves the
list alone. -/
def applyWsData (prev : List JsObj) (msg : WsMessage) (nowMs : Nat) (nowIso : String) :
    List JsObj :=
  if msg.type = "activity_created" then
    (msg.data :: prev).take 20
  else if msg.type = "ingest_received" then
    (ingestActivity msg.data nowMs nowIso :: prev).take 20
  else
    prev

/-- A sequence of inbound events applied to the activity list, each tagged with
the clock values read while handling it. -/
def runWsEvents (init : List JsObj) (events : List (WsMessage × Nat × String)) :
    List JsObj :=
  events.foldl (fun acc e => applyWsData acc e.1 e.2.1 e.2.2) init

/-- `ActivityLog.formatTime`: dates are modelled as milliseconds since the
epoch (`none` is a falsy `dateString`, returned as the empty string), and
`toLocaleDateString` is an abstract rendering of the calendar date. `Math.floor`
of a real division by a positive constant is integer floor division (`Int.fdiv`). -/
def formatTime (toLocaleDateString : Int → String) (dateString : Option Int)
    (now : Int) : String :=
  match dateString with
  | none => ""
  | some date =>
    let diffMs := now - date
    let diffMins := diffMs.fdiv 60000
    let diffHours := diffMs.fdiv 3600000
    if diffMins < 1 then "Just now"
    else if diffMins < 60 then s!"{diffMins}m ago"
    else if diffHours < 24 then s!"{diffHours}h ago"
    else toLocaleDateString date

/-- Concrete task shaped like the board's first sample task. -/
def taskHealth : Task :=
  { id := 1, title := "Daily health check", description := "", status := "permanent",
    priority := "medium", task_type := "health_check", is_recurring := 1, created_at := "" }

/-- Concrete task shaped like the board's backlog sample task. -/
def taskApi : Task :=
  { id := 2, title := "API integration testing", description := "", status := "backlog",
    priority := "high", task_type := "custom", is_recurring := 0, created_at := "" }

/-- A second backlog task for same-status drag instances. -/
def taskUi : Task :=
  { id := 3, title := "Update dashboard UI", description := "", status := "backlog",
    priority := "medium", task_type := "custom", is_recurring := 0, created_at := "" }

/-- Concrete task list used to instantiate the drag-and-drop theorems. -/
def sampleTasks : List Task :=
  [taskHealth, taskApi, taskUi]

/-- A payload object with every field absent, used to instantiate the
activity-log theorems. -/
def blankObj : JsObj :=
  { id := none, type := none, message := none, agent_name := none, created_at := none }

/-- A concrete `activity_created` envelope. -/
def activityMsg : WsMessage :=
  { type := "activity_created", data := blankObj }

/-- A concrete `ingest_received` envelope with an empty payload. -/
def ingestBlankMsg : WsMessage :=
  { type := "ingest_received", data := blankObj }

/-- A concrete `ingest_received` envelope whose payload has an empty (falsy)
agent name and no other fields. -/
def ingestFalsyMsg : WsMessage :=
  { type := "ingest_received", data := { blankObj with agent_name := some "" } }

/-- The entry the client synthesizes from `ingestFalsyMsg` at clock value 42 /
"2025-01-01T00:00:00Z": every payload field was absent or falsy, so every
defaulted value appears. -/
def synthEntry42 : JsObj :=
  { id := some 42, type := some "info",
    message := some "Data ingested from agent", agent_name := some "Unknown",
    created_at := some "2025-01-01T00:00:00Z" }

section Helpers

variable {α : Type _}

/-- When `find?` succeeds, `findIdx` is a valid index and reads back the found
element. -/
theorem find?_findIdx {p : α → Bool} :
    ∀ {l : List α} {a : α}, l.find? p = some a →
      l.findIdx p < l.length ∧ l[l.findIdx p]? = some a := by
  intro l
  induction l with
  | nil => intro a h; simp at h
  | cons x xs ih =>
    intro a h
    by_cases hx : p x
    · rw [List.find?_cons_of_pos _ hx] at h
      cases h
      simp [List.findIdx_cons, hx]
    · rw [List.find?_cons_of_neg _ hx] at h
      have := ih h
      simp only [List.findIdx_cons, hx, cond_false]
      exact ⟨by simpa using Nat.succ_lt_succ this.1, by simpa using this.2⟩

/-- Inserting at a position within bounds is, up to permutation, consing. -/
theorem perm_insertIdx_cons (a : α) :
    ∀ (n : Nat) (l : List α), n ≤ l.length → (l.insertIdx n a).Perm (a :: l) := by
  intro n
  induction n with
  | zero => intro l _; simp
  | succ n ih =>
    intro l hl
    cases l with
    | nil => simp at hl
    | cons x xs =>
      have h : (xs.insertIdx n a).Perm (a :: xs) := ih xs (by simpa using hl)
      have e : ((x :: xs).insertIdx (n + 1) a) = x :: xs.insertIdx n a := by
        simp [List.insertIdx_succ_cons]
      rw [e]
      exact (h.cons x).trans (List.Perm.swap a x xs)

/-- Removing an element and consing it back in front is a permutation of the
original list. -/
theorem cons_eraseIdx_perm :
    ∀ (l : List α) (i : Nat) (a : α), l[i]? = some a → (a :: l.eraseIdx i).Perm l := by
  intro l
  induction l with
  | nil => intro i a h; simp at h
  | cons x xs ih =>
    intro i a h
    cases i with
    | zero =>
      rw [List.getElem?_cons_zero] at h
      cases h
      simp [List.eraseIdx]
    | succ i =>
      rw [List.getElem?_cons_succ] at h
      have h' : (a :: xs.eraseIdx i).Perm xs := ih i a h
      have e : (a :: (x :: xs).eraseIdx (i + 1)) = a :: x :: xs.eraseIdx i := by
        simp [List.eraseIdx]
      rw [e]
      exact (List.Perm.swap x a _).trans (h'.cons x)

/-- Reinserting the removed element at its own index restores the list. -/
theorem insertIdx_eraseIdx_self :
    ∀ (l : List α) (i : Nat) (a : α), l[i]? = some a →
      (l.eraseIdx i).insertIdx i a = l := by
  intro l
  induction l with
  | nil => intro i a h; simp at h
  | cons x xs ih =>
    intro i a h
    cases i with
    | zero =>
      rw [List.getElem?_cons_zero] at h
      cases h
      simp [List.eraseIdx]
    | succ i =>
      rw [List.getElem?_cons_succ] at h
      have := ih i a h
      simp only [List.eraseIdx, List.insertIdx_succ_cons, this]

/-- Reading back the element just inserted at an in-bounds index. -/
theorem getElem?_insertIdx_self (l : List α) (a : α) (n : Nat) (h : n ≤ l.length) :
    (l.insertIdx n a)[n]? = some a := by
  have hlen : (l.insertIdx n a).length = l.length + 1 := List.length_insertIdx n l h
  rw [List.getElem?_eq_getElem (by omega)]
  exact congrArg some (List.getElem_insertIdx_self l a n h)

/-- Behaviour of `arrayMove` at a readable source index and an in-range target
index: remove the element at `i`, reinsert it at `j`. -/
theorem arrayMove_eq_of_lt (l : List Task) (i j : Nat) (x : Task)
    (hget : l[i]? = some x) (hj : j < l.length) :
    arrayMove l i j = (l.eraseIdx i).insertIdx j x := by
  unfold arrayMove
  rw [hget]
  obtain ⟨hi, -⟩ := List.getElem?_eq_some.1 hget
  have hlen : (l.eraseIdx i).length = l.length - 1 := by
    rw [List.length_eraseIdx]
    simp [hi]
  rw [hlen, min_eq_left (by omega)]

end Helpers

/-- C2: a malformed inbound message (one on which `JSON.parse` throws, so the
structural decode yields nothing) leaves the connectivity flag unchanged and is
not forwarded: `wsData` keeps its previous value. -/
theorem onmessage_malformed_preserves_state (st : AppState) :
    (onmessage st none).isConnected = st.isConnected ∧
    (onmessage st none).wsData = st.wsData := by
  exact ⟨rfl, rfl⟩

/-- C9: the unmount cleanup's intentional `close()` runs the very same
unconditional `onclose` handler, so even after teardown the connected flag is
cleared and a fresh reconnection attempt is scheduled 3000 ms later. -/
theorem unmount_close_still_schedules_reconnect (st : AppState) :
    unmountCleanup st = onclose st ∧
    (unmountCleanup st).scheduled = st.scheduled ++ [3000] ∧
    (unmountCleanup st).isConnected = false := by
  exact ⟨rfl, rfl, rfl⟩

/-- Invariant of repeated failed reconnection rounds: after any number of
failures the timer queue still ends in a pending 3000 ms reconnect, each round
consumed one timer and made exactly one further connection attempt, and the
connected flag stays false. -/
theorem failedAttemptCycle_invariant (st : AppState) (n : Nat) :
    (failedAttemptCycle^[n] (onclose st)).scheduled.getLast? = some 3000 ∧
    (failedAttemptCycle^[n] (onclose st)).attempts = st.attempts + n ∧
    (failedAttemptCycle^[n] (onclose st)).isConnected = false := by
  induction n with
  | zero =>
    refine ⟨?_, rfl, rfl⟩
    simp [onclose, List.getLast?_concat]
  | succ n ih =>
    rw [Function.iterate_succ_apply']
    obtain ⟨h1, h2, h3⟩ := ih
    set y := failedAttemptCycle^[n] (onclose st) with hy
    cases hsched : y.scheduled with
    | nil => rw [hsched] at h1; simp at h1
    | cons d rest =>
      have hfire : fireReconnectTimer y = connectWebSocket { y with scheduled := rest } := by
        simp [fireReconnectTimer, hsched]
      refine ⟨?_, ?_, rfl⟩
      · simp [failedAttemptCycle, hfire, connectWebSocket, onclose, List.getLast?_concat]
      · simp only [failedAttemptCycle, hfire, connectWebSocket, onclose]
        omega

/-- C5: every socket closure sets the connected flag to false and schedules
exactly one reconnection attempt with the fixed 3000 ms delay; after any number
`n` of failed rounds a 3000 ms reconnect is still pending and exactly `n`
further attempts were made (no backoff growth, no retry cap), and as soon as an
attempt's `onopen` fires the flag turns true again. -/
theorem onclose_schedules_fixed_delay_reconnect (st : AppState) (n : Nat) :
    (onclose st).isConnected = false ∧
    (onclose st).scheduled = st.scheduled ++ [3000] ∧
    (failedAttemptCycle^[n] (onclose st)).scheduled.getLast? = some 3000 ∧
    (failedAttemptCycle^[n] (onclose st)).attempts = st.attempts + n ∧
    (onopen (fireReconnectTimer (failedAttemptCycle^[n] (onclose st)))).isConnected = true := by
  obtain ⟨h1, h2, -⟩ := failedAttemptCycle_invariant st n
  exact ⟨rfl, rfl, h1, h2, rfl⟩

/-- C3 counterexample: when the PUT promise rejects (network-level failure),
`updateTaskStatus` lands in its `catch` block, which only logs — the
`fetchTasks()` refetch is not reached, so the refetch is not unconditional. -/
theorem updateTaskStatus_refetch_not_unconditional :
    updateTaskStatusRefetches FetchOutcome.rejected = false := rfl

/-- C3 (amended): a cross-status drag issues exactly one partial update request
changing only the dragged task's status to the target task's status and leaves
the local list untouched; the follow-up full refetch runs whenever the request's
promise resolves (including non-2xx responses), but not when it rejects. -/
theorem handleDragEnd_cross_status_update
    (tasks : List Task) (activeId overId : Nat) (aT oT : Task)
    (ha : tasks.find? (fun t => t.id == activeId) = some aT)
    (ho : tasks.find? (fun t => t.id == overId) = some oT)
    (hs : aT.status ≠ oT.status) :
    handleDragEnd tasks activeId (some overId) = (tasks, some (activeId, oT.status)) ∧
    (∀ ok, updateTaskStatusRefetches (FetchOutcome.resolved ok) = true) ∧
    updateTaskStatusRefetches FetchOutcome.rejected = false := by
  refine ⟨?_, fun _ => rfl, rfl⟩
  have hb : (aT.status == oT.status) = false := by
    simpa using hs
  simp [handleDragEnd, ha, ho, hb]

/-- C3 witness: dragging the permanent task onto a backlog task requests only a
status change to "backlog"; the refetch flag follows the promise outcome. -/
theorem handleDragEnd_cross_status_update_witness :
    handleDragEnd sampleTasks 1 (some 2) = (sampleTasks, some (1, "backlog")) ∧
    updateTaskStatusRefetches (FetchOutcome.resolved true) = true ∧
    updateTaskStatusRefetches FetchOutcome.rejected = false := by
  have h := handleDragEnd_cross_status_update sampleTasks 1 2 taskHealth taskApi
    (by decide) (by decide) (by decide)
  exact ⟨h.1, h.2.1 true, h.2.2⟩

/-- C7: a drop with no target is a no-op, and so is any drag whose active or
target id resolves to no task record: the list is unchanged and no PUT request
is issued. -/
theorem handleDragEnd_invalid_target_noop (tasks : List Task) (activeId : Nat) :
    handleDragEnd tasks activeId none = (tasks, none) ∧
    ∀ overId : Nat,
      (tasks.find? (fun t => t.id == activeId) = none ∨
       tasks.find? (fun t => t.id == overId) = none) →
      handleDragEnd tasks activeId (some overId) = (tasks, none) := by
  refine ⟨rfl, fun overId h => ?_⟩
  cases hfa : tasks.find? (fun t => t.id == activeId) with
  | none =>
    cases hfo : tasks.find? (fun t => t.id == overId) with
    | none => simp [handleDragEnd, hfa, hfo]
    | some oT => simp [handleDragEnd, hfa, hfo]
  | some aT =>
    cases hfo : tasks.find? (fun t => t.id == overId) with
    | none => simp [handleDragEnd, hfa, hfo]
    | some oT =>
      rw [hfa, hfo] at h
      rcases h with h | h <;> simp at h

/-- C7 witness: id 99 matches no sample task, so both the targetless drop and
the unresolved drag leave the list alone and issue nothing. -/
theorem handleDragEnd_invalid_target_noop_witness :
    handleDragEnd sampleTasks 99 none = (sampleTasks, none) ∧
    handleDragEnd sampleTasks 99 (some 1) = (sampleTasks, none) :=
  ⟨(handleDragEnd_invalid_target_noop sampleTasks 99).1,
   (handleDragEnd_invalid_target_noop sampleTasks 99).2 1 (Or.inl (by decide))⟩

/-- C8: dropping a task onto itself resolves both records to the same task,
falls through to the same-status branch with equal old and new indices, and the
move is the identity: the list is returned unchanged and no request is issued. -/
theorem handleDragEnd_self_drop_identity (tasks : List Task) (activeId : Nat) (aT : Task)
    (ha : tasks.find? (fun t => t.id == activeId) = some aT) :
    handleDragEnd tasks activeId (some activeId) = (tasks, none) := by
  obtain ⟨hlt, hget⟩ := find?_findIdx ha
  have hmove : arrayMove tasks (tasks.findIdx fun t => t.id == activeId)
      (tasks.findIdx fun t => t.id == activeId) = tasks := by
    rw [arrayMove_eq_of_lt tasks _ _ aT hget hlt]
    exact insertIdx_eraseIdx_self tasks _ aT hget
  simp [handleDragEnd, ha, hmove]

/-- C8 witness: dropping the backlog task with id 2 onto itself changes
nothing. -/
theorem handleDragEnd_self_drop_identity_witness :
    handleDragEnd sampleTasks 2 (some 2) = (sampleTasks, none) :=
  handleDragEnd_self_drop_identity sampleTasks 2 taskApi (by decide)

/-- C1: a same-status drag produces a permutation of the input list — no task
is duplicated or dropped; the dragged task is the one at its old index in the
input, it lands at the drop target's index in the output, and removing it from
both lists leaves the same remainder, so the relative order of all other tasks
is preserved. -/
theorem handleDragEnd_same_status_is_permutation
    (tasks : List Task) (activeId overId : Nat) (aT oT : Task)
    (ha : tasks.find? (fun t => t.id == activeId) = some aT)
    (ho : tasks.find? (fun t => t.id == overId) = some oT)
    (hs : aT.status = oT.status) :
    ((handleDragEnd tasks activeId (some overId)).1).Perm tasks ∧
    tasks[tasks.findIdx (fun t => t.id == activeId)]? = some aT ∧
    ((handleDragEnd tasks activeId (some overId)).1)[tasks.findIdx
      (fun t => t.id == overId)]? = some aT ∧
    ((handleDragEnd tasks activeId (some overId)).1).eraseIdx
        (tasks.findIdx (fun t => t.id == overId))
      = tasks.eraseIdx (tasks.findIdx (fun t => t.id == activeId)) := by
  obtain ⟨hia, hgeta⟩ := find?_findIdx ha
  obtain ⟨hio, hgeto⟩ := find?_findIdx ho
  have hb : (aT.status == oT.status) = true := by simpa using hs
  have hDef : handleDragEnd tasks activeId (some overId)
      = (arrayMove tasks (tasks.findIdx fun t => t.id == activeId)
          (tasks.findIdx fun t => t.id == overId), none) := by
    simp [handleDragEnd, ha, ho, hb]
  have hE : (tasks.eraseIdx (tasks.findIdx fun t => t.id == activeId)).length
      = tasks.length - 1 := by
    rw [List.length_eraseIdx]
    simp [hia]
  have hjb : (tasks.findIdx fun t => t.id == overId)
      ≤ (tasks.eraseIdx (tasks.findIdx fun t => t.id == activeId)).length := by
    omega
  have hMove : (handleDragEnd tasks activeId (some overId)).1
      = (tasks.eraseIdx (tasks.findIdx fun t => t.id == activeId)).insertIdx
          (tasks.findIdx fun t => t.id == overId) aT := by
    rw [hDef]
    exact arrayMove_eq_of_lt tasks _ _ aT hgeta hio
  refine ⟨?_, hgeta, ?_, ?_⟩
  · rw [hMove]
    exact (perm_insertIdx_cons aT _ _ hjb).trans (cons_eraseIdx_perm tasks _ aT hgeta)
  · rw [hMove]
    exact getElem?_insertIdx_self _ aT _ hjb
  · rw [hMove]
    exact List.eraseIdx_insertIdx _ _

/-- C1 witness: dragging backlog task 3 onto backlog task 2 in the sample list
is a permutation that moves the dragged task to the target's index and keeps
the rest in order. -/
theorem handleDragEnd_same_status_is_permutation_witness :
    ((handleDragEnd sampleTasks 3 (some 2)).1).Perm sampleTasks ∧
    sampleTasks[sampleTasks.findIdx (fun t => t.id == 3)]? = some taskUi ∧
    ((handleDragEnd sampleTasks 3 (some 2)).1)[sampleTasks.findIdx
      (fun t => t.id == 2)]? = some taskUi ∧
    ((handleDragEnd sampleTasks 3 (some 2)).1).eraseIdx
        (sampleTasks.findIdx (fun t => t.id == 2))
      = sampleTasks.eraseIdx (sampleTasks.findIdx (fun t => t.id == 3)) :=
  handleDragEnd_same_status_is_permutation sampleTasks 3 2 taskUi taskApi
    (by decide) (by decide) (by decide)

/-- One inbound event never grows the activity list past 20 entries. -/
theorem applyWsData_length_le (prev : List JsObj) (msg : WsMessage) (nowMs : Nat)
    (nowIso : String) (h : prev.length ≤ 20) :
    (applyWsData prev msg nowMs nowIso).length ≤ 20 := by
  unfold applyWsData
  split
  · simp [List.length_take]
  · split
    · simp [List.length_take]
    · exact h

/-- The 20-entry cap is preserved along any sequence of inbound events. -/
theorem runWsEvents_length_le :
    ∀ (events : List (WsMessage × Nat × String)) (init : List JsObj),
      init.length ≤ 20 → (runWsEvents init events).length ≤ 20 := by
  intro events
  induction events with
  | nil => intro init h; exact h
  | cons e rest ih =>
    intro init h
    simp only [runWsEvents, List.foldl_cons]
    exact ih _ (applyWsData_length_le _ _ _ _ h)

/-- C4: starting from any activity list of at most 20 entries, no sequence of
inbound events pushes the list past 20; each `activity_created` or
`ingest_received` event prepends its entry under `slice(0, 20)`, and when the
list already holds 20 entries that prepend evicts exactly the oldest (last)
entry. -/
theorem activityLog_capped (init : List JsObj) (hinit : init.length ≤ 20)
    (events : List (WsMessage × Nat × String)) :
    (runWsEvents init events).length ≤ 20 ∧
    (∀ (acts : List JsObj) (msg : WsMessage) (nowMs : Nat) (nowIso : String),
      msg.type = "activity_created" →
      applyWsData acts msg nowMs nowIso = (msg.data :: acts).take 20) ∧
    (∀ (acts : List JsObj) (msg : WsMessage) (nowMs : Nat) (nowIso : String),
      msg.type = "ingest_received" →
      applyWsData acts msg nowMs nowIso
        = (ingestActivity msg.data nowMs nowIso :: acts).take 20) ∧
    (∀ (acts : List JsObj) (a : JsObj), acts.length = 20 →
      (a :: acts).take 20 = a :: acts.dropLast) := by
  refine ⟨runWsEvents_length_le events init hinit, ?_, ?_, ?_⟩
  · intro acts msg nowMs nowIso ht
    simp [applyWsData, ht]
  · intro acts msg nowMs nowIso ht
    simp [applyWsData, ht]
  · intro acts a hlen
    rw [show (20 : Nat) = 19 + 1 from rfl, List.take_succ_cons]
    rw [List.dropLast_eq_take, hlen]

/-- C4 witness: from a full 20-entry list, an `activity_created` event prepends
its payload and evicts the last entry. -/
theorem activityLog_capped_witness :
    (runWsEvents [] []).length ≤ 20 ∧
    applyWsData [] activityMsg 0 "" = ([activityMsg.data] : List JsObj).take 20 ∧
    applyWsData [] ingestBlankMsg 7 "t"
      = ([ingestActivity ingestBlankMsg.data 7 "t"] : List JsObj).take 20 ∧
    (blankObj :: List.replicate 20 blankObj).take 20
      = blankObj :: (List.replicate 20 blankObj).dropLast := by
  have h := activityLog_capped [] (by decide) []
  exact ⟨h.1,
    h.2.1 [] activityMsg 0 "" rfl,
    h.2.2.1 [] ingestBlankMsg 7 "t" rfl,
    h.2.2.2 (List.replicate 20 blankObj) blankObj (by simp)⟩

/-- C10: an `ingest_received` message is turned into a locally synthesized
entry — id from `Date.now()`, `type`, `message` and `agent_name` defaulted
through JS `||` (so whenever the payload field is absent or falsy), `created_at`
from the local clock — and prepended under the same 20-entry cap. -/
theorem ingest_received_synthesizes_activity
    (acts : List JsObj) (msg : WsMessage) (nowMs : Nat) (nowIso : String)
    (ht : msg.type = "ingest_received") :
    applyWsData acts msg nowMs nowIso
      = (ingestActivity msg.data nowMs nowIso :: acts).take 20 ∧
    ingestActivity msg.data nowMs nowIso =
      { id := some nowMs,
        type := some (jsOr msg.data.type "info"),
        message := some (jsOr msg.data.message "Data ingested from agent"),
        agent_name := some (jsOr msg.data.agent_name "Unknown"),
        created_at := some nowIso } ∧
    (∀ d : String, jsOr none d = d) ∧
    (∀ d : String, jsOr (some "") d = d) ∧
    (∀ (s d : String), s ≠ "" → jsOr (some s) d = s) := by
  refine ⟨by simp [applyWsData, ht], rfl, fun d => rfl, fun d => by simp [jsOr], ?_⟩
  intro s d hsne
  simp [jsOr, hsne]

/-- C10 witness: an ingest payload with absent type and message and an empty
agent name synthesizes the defaulted entry with the local clock values. -/
theorem ingest_received_synthesizes_activity_witness :
    applyWsData [] ingestFalsyMsg 42 "2025-01-01T00:00:00Z" = [synthEntry42] ∧
    jsOr none "Unknown" = "Unknown" ∧
    jsOr (some "") "Unknown" = "Unknown" ∧
    jsOr (some "scraper") "Unknown" = "scraper" := by
  have h := ingest_received_synthesizes_activity [] ingestFalsyMsg
    42 "2025-01-01T00:00:00Z" rfl
  refine ⟨?_, h.2.2.1 "Unknown", h.2.2.2.1 "Unknown", h.2.2.2.2 "scraper" "Unknown" (by decide)⟩
  rw [h.1]
  rfl

/-- C6: relative-time buckets of `formatTime` on a parseable timestamp: under a
minute of elapsed time the label is "Just now"; under an hour it is the whole
elapsed minutes followed by "m ago"; under a day the whole elapsed hours
followed by "h ago"; otherwise the calendar-date rendering of the timestamp. -/
theorem formatTime_relative_buckets (toLocaleDateString : Int → String) (t now : Int) :
    (0 ≤ now - t → now - t < 60000 →
      formatTime toLocaleDateString (some t) now = "Just now") ∧
    (60000 ≤ now - t → now - t < 3600000 →
      formatTime toLocaleDateString (some t) now = s!"{(now - t).fdiv 60000}m ago") ∧
    (3600000 ≤ now - t → now - t < 86400000 →
      formatTime toLocaleDateString (some t) now = s!"{(now - t).fdiv 3600000}h ago") ∧
    (86400000 ≤ now - t →
      formatTime toLocaleDateString (some t) now = toLocaleDateString t) := by
  have e1 : (now - t).fdiv 60000 = (now - t) / 60000 := Int.fdiv_eq_ediv _ (by norm_num)
  have e2 : (now - t).fdiv 3600000 = (now - t) / 3600000 := Int.fdiv_eq_ediv _ (by norm_num)
  refine ⟨?_, ?_, ?_, ?_⟩
  · intro h1 h2
    have c1 : (now - t).fdiv 60000 < 1 := by rw [e1]; omega
    simp only [formatTime, if_pos c1]
  · intro h1 h2
    have c1 : ¬ (now - t).fdiv 60000 < 1 := by rw [e1]; omega
    have c2 : (now - t).fdiv 60000 < 60 := by rw [e1]; omega
    simp only [formatTime, if_neg c1, if_pos c2]
  · intro h1 h2
    have c1 : ¬ (now - t).fdiv 60000 < 1 := by rw [e1]; omega
    have c2 : ¬ (now - t).fdiv 60000 < 60 := by rw [e1]; omega
    have c3 : (now - t).fdiv 3600000 < 24 := by rw [e2]; omega
    simp only [formatTime, if_neg c1, if_neg c2, if_pos c3]
  · intro h1
    have c1 : ¬ (now - t).fdiv 60000 < 1 := by rw [e1]; omega
    have c2 : ¬ (now - t).fdiv 60000 < 60 := by rw [e1]; omega
    have c3 : ¬ (now - t).fdiv 3600000 < 24 := by rw [e2]; omega
    simp only [formatTime, if_neg c1, if_neg c2, if_neg c3]

/-- C6 witness: 30 seconds elapsed renders "Just now", 5 minutes "5m ago",
3 hours "3h ago", and 2 days the calendar date. -/
theorem formatTime_relative_buckets_witness :
    formatTime (fun _ => "12/31/2025") (some 0) 30000 = "Just now" ∧
    formatTime (fun _ => "12/31/2025") (some 0) 300000 = "5m ago" ∧
    formatTime (fun _ => "12/31/2025") (some 0) 10800000 = "3h ago" ∧
    formatTime (fun _ => "12/31/2025") (some 0) 172800000 = "12/31/2025" := by
  refine ⟨?_, ?_, ?_, ?_⟩
  · exact (formatTime_relative_buckets (fun _ => "12/31/2025") 0 30000).1
      (by decide) (by decide)
  · rw [(formatTime_relative_buckets (fun _ => "12/31/2025") 0 300000).2.1
      (by decide) (by decide)]
    rfl
  · rw [(formatTime_relative_buckets (fun _ => "12/31/2025") 0 10800000).2.2.1
      (by decide) (by decide)]
    rfl
  · exact (formatTime_relative_buckets (fun _ => "12/31/2025") 0 172800000).2.2.2
      (by decide)

end AgentDash
